import Mathlib

/-!
Shallow embedding of the Vulkan bootstrap core of ash-gltf
(src/app.rs, src/app/swapchain.rs, src/app/frame.rs, src/main.rs).

Driver handles (images, semaphores, command pools, command buffers) are
modelled as natural numbers handed out by a fresh-handle counter; Vulkan
enumeration constants are modelled as their numeric values.  Fallible
driver calls either appear as explicit inputs (the query results a real
driver would return) or, where a claim is about failure propagation, as
a failure oracle.  Rust `?` is modelled as an error result, Rust
`.unwrap()` on a failure as a panic outcome.
-/

namespace AshGltf

/-- u32::MAX, the sentinel value checked by choose_extent. -/
def U32_MAX : Nat := 4294967295

/-- vk::QueueFlags::GRAPHICS bit. -/
def GRAPHICS : Nat := 1

/-- vk::CommandPoolCreateFlags::RESET_COMMAND_BUFFER bit. -/
def RESET_COMMAND_BUFFER : Nat := 2

/-- vk::CommandBufferLevel::PRIMARY. -/
def PRIMARY : Nat := 0

/-- vk::PresentModeKHR::MAILBOX. -/
def MAILBOX : Nat := 1

/-- vk::PresentModeKHR::FIFO. -/
def FIFO : Nat := 2

/-- vk::Format::B8G8R8_UNORM. -/
def B8G8R8_UNORM : Nat := 30

/-- vk::ColorSpaceKHR::SRGB_NONLINEAR. -/
def SRGB_NONLINEAR : Nat := 0

/-- vk::ImageViewType::TYPE_2D. -/
def TYPE_2D : Nat := 1

/-- vk::ComponentSwizzle::IDENTITY. -/
def IDENTITY : Nat := 0

/-- vk::ImageAspectFlags::COLOR bit. -/
def COLOR_ASPECT : Nat := 1

/-- vk::ImageUsageFlags::COLOR_ATTACHMENT bit. -/
def COLOR_ATTACHMENT : Nat := 16

/-- vk::SharingMode::EXCLUSIVE. -/
def EXCLUSIVE : Nat := 0

/-- vk::CompositeAlphaFlagsKHR::OPAQUE bit. -/
def OPAQUE : Nat := 1

/-- App::FRAMES_IN_FLIGHT (src/app.rs). -/
def FRAMES_IN_FLIGHT : Nat := 2

/-- Modelled from the spec: the crate-level WINDOW_WIDTH constant referenced
by src/app/swapchain.rs is not among the given sources; the spec's §6
configuration surface and §8 scenario fix the window size at 800x600,
matching the WIDTH constant of src/main.rs. -/
def WINDOW_WIDTH : Nat := 800

/-- Modelled from the spec: companion of WINDOW_WIDTH, the 600 half of the
800x600 window size. -/
def WINDOW_HEIGHT : Nat := 600

/-- vk::Extent2D. -/
structure Extent2D where
  width : Nat
  height : Nat
deriving DecidableEq, Repr

/-- vk::SurfaceFormatKHR. -/
structure SurfaceFormatKHR where
  format : Nat
  color_space : Nat
deriving DecidableEq, Repr

/-- vk::SurfaceCapabilitiesKHR (the fields the code reads). -/
structure SurfaceCapabilitiesKHR where
  min_image_count : Nat
  max_image_count : Nat
  current_extent : Extent2D
  min_image_extent : Extent2D
  max_image_extent : Extent2D
  current_transform : Nat
deriving DecidableEq, Repr

/-- swapchain.rs: SwapchainSupportDetails, the snapshot of the three surface
queries.  The queries themselves are driver calls, so the snapshot is an
input of the model. -/
structure SwapchainSupportDetails where
  caps : SurfaceCapabilitiesKHR
  formats : List SurfaceFormatKHR
  present_modes : List Nat
deriving DecidableEq, Repr

/-- swapchain.rs choose_surface_format: the body of the for loop, returning
the first supported format equal to the preferred one. -/
def find_format_loop : List SurfaceFormatKHR → SurfaceFormatKHR → Option SurfaceFormatKHR
  | [], _ => none
  | f :: rest, preferred => if f = preferred then some f else find_format_loop rest preferred

/-- swapchain.rs choose_surface_format.  The Rust fallback is
`self.formats[0]`, which panics on an empty vector; the panic is modelled
as `none` via `head?`. -/
def SwapchainSupportDetails.choose_surface_format (d : SwapchainSupportDetails)
    (preferred_format : SurfaceFormatKHR) : Option SurfaceFormatKHR :=
  match find_format_loop d.formats preferred_format with
  | some f => some f
  | none => d.formats.head?

/-- swapchain.rs choose_present_mode: the body of the for loop. -/
def find_mode_loop : List Nat → Nat → Option Nat
  | [], _ => none
  | m :: rest, preferred => if m = preferred then some m else find_mode_loop rest preferred

/-- swapchain.rs choose_present_mode, with the FIFO fallback. -/
def SwapchainSupportDetails.choose_present_mode (d : SwapchainSupportDetails)
    (preferred_mode : Nat) : Nat :=
  match find_mode_loop d.present_modes preferred_mode with
  | some m => m
  | none => FIFO

/-- u32::clamp as the Rust standard library computes it (for lo ≤ hi). -/
def u32_clamp (v lo hi : Nat) : Nat :=
  if v < lo then lo else if v > hi then hi else v

/-- swapchain.rs choose_extent.  The code checks only the width component
of current_extent against the u32::MAX sentinel. -/
def SwapchainSupportDetails.choose_extent (d : SwapchainSupportDetails)
    (width height : Nat) : Extent2D :=
  if d.caps.current_extent.width ≠ U32_MAX then
    d.caps.current_extent
  else
    { width := u32_clamp width d.caps.min_image_extent.width d.caps.max_image_extent.width,
      height := u32_clamp height d.caps.min_image_extent.height d.caps.max_image_extent.height }

/-- swapchain.rs optimal_min_image_count. -/
def SwapchainSupportDetails.optimal_min_image_count (d : SwapchainSupportDetails) : Nat :=
  d.caps.min_image_count + 1

/-- vk::ComponentMapping. -/
structure ComponentMapping where
  r : Nat
  g : Nat
  b : Nat
  a : Nat
deriving DecidableEq, Repr

/-- vk::ImageSubresourceRange. -/
structure ImageSubresourceRange where
  aspect_mask : Nat
  base_mip_level : Nat
  level_count : Nat
  base_array_layer : Nat
  layer_count : Nat
deriving DecidableEq, Repr

/-- An image view as created by swapchain.rs create_image_views: the fields
of the ImageViewCreateInfo the code fills in. -/
structure ImageView where
  image : Nat
  view_type : Nat
  format : Nat
  components : ComponentMapping
  subresource_range : ImageSubresourceRange
deriving DecidableEq, Repr

/-- swapchain.rs create_image_views: one 2D color view per image, identity
swizzle, single mip level and array layer. -/
def create_image_views (images : List Nat) (format : Nat) : List ImageView :=
  images.map fun image =>
    { image := image,
      view_type := TYPE_2D,
      format := format,
      components := { r := IDENTITY, g := IDENTITY, b := IDENTITY, a := IDENTITY },
      subresource_range :=
        { aspect_mask := COLOR_ASPECT, base_mip_level := 0, level_count := 1,
          base_array_layer := 0, layer_count := 1 } }

/-- The fields of vk::SwapchainCreateInfoKHR that swapchain.rs fills in. -/
structure SwapchainCreateInfo where
  min_image_count : Nat
  image_format : Nat
  image_color_space : Nat
  image_extent : Extent2D
  image_array_layers : Nat
  image_usage : Nat
  image_sharing_mode : Nat
  pre_transform : Nat
  composite_alpha : Nat
  present_mode : Nat
  clipped : Bool
deriving DecidableEq, Repr

/-- swapchain.rs Swapchain (driver handles for the chain itself and the
swapchain device are omitted; they carry no structure the claims need). -/
structure Swapchain where
  extent : Extent2D
  images : List Nat
  image_views : List ImageView
  details : SwapchainSupportDetails
deriving DecidableEq, Repr

/-- The preferred format hard-coded in Swapchain::new. -/
def preferred_surface_format : SurfaceFormatKHR :=
  { format := B8G8R8_UNORM, color_space := SRGB_NONLINEAR }

/-- swapchain.rs Swapchain::new.  The surface-query snapshot and the image
list returned by get_swapchain_images are inputs (driver responses); the
create-info record passed to create_swapchain is returned so that what was
requested is observable.  `none` models the panic of the formats[0] index
inside choose_surface_format on an empty format list. -/
def Swapchain.new (details : SwapchainSupportDetails) (driver_images : List Nat) :
    Option (SwapchainCreateInfo × Swapchain) :=
  match details.choose_surface_format preferred_surface_format with
  | none => none
  | some surface_format =>
    let present_mode := details.choose_present_mode MAILBOX
    let extent := details.choose_extent WINDOW_WIDTH WINDOW_HEIGHT
    let min_image_count := details.optimal_min_image_count
    let info : SwapchainCreateInfo :=
      { min_image_count := min_image_count,
        image_format := surface_format.format,
        image_color_space := surface_format.color_space,
        image_extent := extent,
        image_array_layers := 1,
        image_usage := COLOR_ATTACHMENT,
        image_sharing_mode := EXCLUSIVE,
        pre_transform := details.caps.current_transform,
        composite_alpha := OPAQUE,
        present_mode := present_mode,
        clipped := true }
    let image_views := create_image_views driver_images surface_format.format
    some (info, { extent := extent, images := driver_images,
                  image_views := image_views, details := details })

/-- A handle-allocating device model: driver objects receive fresh numeric
handles from a counter, and every command buffer ever allocated is logged so
that per-pool allocation counts are observable. -/
structure CommandBuffer where
  id : Nat
  pool : Nat
  level : Nat
deriving DecidableEq, Repr, Inhabited

/-- vk::CommandPool as created by frame.rs (handle plus the create-info
fields the code sets). -/
structure CommandPool where
  id : Nat
  flags : Nat
  queue_family_index : Nat
deriving DecidableEq, Repr

/-- A binary semaphore; Vulkan creates semaphores unsignaled. -/
structure Semaphore where
  id : Nat
  signaled : Bool
deriving DecidableEq, Repr

/-- State of the logical-device model: the next fresh handle and the log of
all command buffers allocated so far. -/
structure DeviceState where
  next_handle : Nat
  buffers : List CommandBuffer
deriving DecidableEq, Repr

/-- Device model of vkCreateCommandPool. -/
def create_command_pool (st : DeviceState) (flags index : Nat) : CommandPool × DeviceState :=
  ({ id := st.next_handle, flags := flags, queue_family_index := index },
   { st with next_handle := st.next_handle + 1 })

/-- Device model of vkAllocateCommandBuffers: `count` buffers from `pool`
at `level`, all logged. -/
def allocate_command_buffers (st : DeviceState) (pool count level : Nat) :
    List CommandBuffer × DeviceState :=
  let bufs := (List.range count).map fun k => CommandBuffer.mk (st.next_handle + k) pool level
  (bufs, { next_handle := st.next_handle + count, buffers := st.buffers ++ bufs })

/-- Device model of vkCreateSemaphore (frame.rs create_sync_objects):
semaphores are created unsignaled. -/
def create_semaphore (st : DeviceState) : Semaphore × DeviceState :=
  ({ id := st.next_handle, signaled := false }, { st with next_handle := st.next_handle + 1 })

/-- frame.rs Frame. -/
structure Frame where
  swapchain_sem : Semaphore
  rendering_sem : Semaphore
  command_pool : CommandPool
  main_command_buffer : CommandBuffer
deriving DecidableEq, Repr

/-- frame.rs Frame::new on the success path: command pool with the
RESET_COMMAND_BUFFER flag for the given queue family, exactly one primary
command buffer (command_buffer_count = 1, the code keeps command_buffer[0]),
then the two semaphores, created in the written field order. -/
def Frame.new (st : DeviceState) (index : Nat) : Frame × DeviceState :=
  let poolSt := create_command_pool st RESET_COMMAND_BUFFER index
  let bufSt := allocate_command_buffers poolSt.2 poolSt.1.id 1 PRIMARY
  let sem1St := create_semaphore bufSt.2
  let sem2St := create_semaphore sem1St.2
  ({ swapchain_sem := sem1St.1, rendering_sem := sem2St.1,
     command_pool := poolSt.1, main_command_buffer := bufSt.1.headI },
   sem2St.2)

/-- app.rs App::new frame loop: (0..FRAMES_IN_FLIGHT).for_each pushing
Frame::new results in order. -/
def make_frames (index : Nat) : Nat → DeviceState → List Frame × DeviceState
  | 0, st => ([], st)
  | n + 1, st =>
    let frameSt := Frame.new st index
    let restSt := make_frames index n frameSt.2
    (frameSt.1 :: restSt.1, restSt.2)

/-- vk::QueueFamilyProperties (the fields the code reads). -/
structure QueueFamilyProperties where
  queue_flags : Nat
  queue_count : Nat
deriving DecidableEq, Repr

/-- The loop condition of find_queue_family_indicies:
family.queue_count > 0 && family.queue_flags.contains(queue_type), where
QueueFlags::contains is a bitmask inclusion test. -/
def family_matches (f : QueueFamilyProperties) (queue_type : Nat) : Prop :=
  f.queue_count > 0 ∧ f.queue_flags &&& queue_type = queue_type

instance (f : QueueFamilyProperties) (queue_type : Nat) :
    Decidable (family_matches f queue_type) :=
  inferInstanceAs (Decidable (f.queue_count > 0 ∧ f.queue_flags &&& queue_type = queue_type))

/-- app.rs find_queue_family_indicies: the enumerate loop with early
return, carrying the running index. -/
def find_queue_family_aux (queue_type : Nat) : Nat → List QueueFamilyProperties → Option Nat
  | _, [] => none
  | i, family :: rest =>
    if family_matches family queue_type then some i
    else find_queue_family_aux queue_type (i + 1) rest

/-- app.rs App::find_queue_family_indicies over a queue-family table. -/
def find_queue_family_indicies (families : List QueueFamilyProperties)
    (queue_type : Nat) : Option Nat :=
  find_queue_family_aux queue_type 0 families

/-- The error taxonomy the spec names for device selection. -/
inductive VkError where
  | noDeviceFound
  | incompleteQueueFamilies
deriving DecidableEq, Repr

/-- Outcome of a selection step: a value, a returned error, or a Rust
panic (unwrap on a missing value). -/
inductive SelectOutcome where
  | ok : Nat → SelectOutcome
  | error : VkError → SelectOutcome
  | panic : SelectOutcome
deriving DecidableEq, Repr

/-- app.rs App::new queue-family resolution: only a GRAPHICS query is made,
and its Option result is `.unwrap()`ed, so an unresolved index panics. -/
def app_queue_family_selection (families : List QueueFamilyProperties) : SelectOutcome :=
  match find_queue_family_indicies families GRAPHICS with
  | some i => SelectOutcome.ok i
  | none => SelectOutcome.panic

/-- Modelled from the spec: §4.3's graphics loop, recording the first
family index whose flags include graphics capability (the spec sentence
states no queue-count condition). -/
def spec_first_graphics : Nat → List QueueFamilyProperties → Option Nat
  | _, [] => none
  | i, family :: rest =>
    if family.queue_flags &&& GRAPHICS = GRAPHICS then some i
    else spec_first_graphics (i + 1) rest

/-- Modelled from the spec: §4.3's present loop, recording the first family
index for which the surface-support query returns true. -/
def spec_first_present (surface_support : Nat → Bool) :
    Nat → List QueueFamilyProperties → Option Nat
  | _, [] => none
  | i, _ :: rest =>
    if surface_support i then some i
    else spec_first_present surface_support (i + 1) rest

/-- Modelled from the spec: §4.3's selection contract — both loops run over
the family table, and IncompleteQueueFamilies is returned if either index
remains unresolved.  No code under src/ performs the present-support query;
this definition renders the claim so it can be compared with
app_queue_family_selection. -/
def spec_queue_family_selection (families : List QueueFamilyProperties)
    (surface_support : Nat → Bool) : Except VkError (Nat × Nat) :=
  match spec_first_graphics 0 families, spec_first_present surface_support 0 families with
  | some g, some p => Except.ok (g, p)
  | _, _ => Except.error VkError.incompleteQueueFamilies

/-- app.rs App::pick_physical_device: the match on devices.len(), with the
anyhow "No GPU???" error modelled as NoDeviceFound (the spec's name for
it). -/
def pick_physical_device (devices : List Nat) : Except VkError Nat :=
  match devices with
  | [] => Except.error VkError.noDeviceFound
  | d :: _ => Except.ok d

/-- The App fields that the Drop impl walks (driver handles for the
swapchain, device, surface and the instance itself carry no structure the
drop order needs, so their destroy calls are payload-free events). -/
structure App where
  image_views : List ImageView
  debug_attached : Bool
  frames : List Frame
deriving DecidableEq, Repr

/-- One destroy call issued by impl Drop for App. -/
inductive DestroyEvent where
  | image_view : ImageView → DestroyEvent
  | debug_messenger : DestroyEvent
  | semaphore : Nat → DestroyEvent
  | command_pool : Nat → DestroyEvent
  | swapchain : DestroyEvent
  | device : DestroyEvent
  | surface : DestroyEvent
  | inst : DestroyEvent
deriving DecidableEq, Repr

/-- The destroy calls the per-frame loop of the Drop impl issues for one
frame, in the written order: the two semaphores, then the command pool. -/
def frame_destroy_events (frame : Frame) : List DestroyEvent :=
  [DestroyEvent.semaphore frame.swapchain_sem.id,
   DestroyEvent.semaphore frame.rendering_sem.id,
   DestroyEvent.command_pool frame.command_pool.id]

/-- app.rs impl Drop for App, statement by statement: the image-view loop,
the conditional debug-messenger destroy, the per-frame loop (two semaphores
then the command pool), then swapchain, device, surface, instance. -/
def App.drop (app : App) : List DestroyEvent :=
  let tr := app.image_views.foldl (fun acc view => acc ++ [DestroyEvent.image_view view]) []
  let tr := if app.debug_attached then tr ++ [DestroyEvent.debug_messenger] else tr
  let tr := app.frames.foldl (fun acc frame => acc ++ frame_destroy_events frame) tr
  tr ++ [DestroyEvent.swapchain, DestroyEvent.device, DestroyEvent.surface, DestroyEvent.inst]

/-- Which of Frame::new's four driver calls fail, in call order: command
pool creation, command-buffer allocation, first semaphore, second
semaphore. -/
structure FrameFailures where
  pool_fails : Bool
  buffers_fail : Bool
  sem1_fails : Bool
  sem2_fails : Bool
deriving DecidableEq, Repr

/-- Outcome of running fallible construction code: success, an Err returned
to the caller, or a panic. -/
inductive CallOutcome (α : Type) where
  | ok : α → CallOutcome α
  | error : CallOutcome α
  | panic : CallOutcome α
deriving DecidableEq, Repr

/-- frame.rs Frame::new under a failure oracle, mirroring how each call
site treats failure: create_command_pool(..).unwrap() and
allocate_command_buffers(..).unwrap() turn a driver error into a panic,
while the two create_sync_objects calls use `?` and return Err. -/
def Frame.new_with_failures (o : FrameFailures) (st : DeviceState) (index : Nat) :
    CallOutcome (Frame × DeviceState) :=
  if o.pool_fails then CallOutcome.panic else
  let poolSt := create_command_pool st RESET_COMMAND_BUFFER index
  if o.buffers_fail then CallOutcome.panic else
  let bufSt := allocate_command_buffers poolSt.2 poolSt.1.id 1 PRIMARY
  if o.sem1_fails then CallOutcome.error else
  let sem1St := create_semaphore bufSt.2
  if o.sem2_fails then CallOutcome.error else
  let sem2St := create_semaphore sem1St.2
  CallOutcome.ok
    ({ swapchain_sem := sem1St.1, rendering_sem := sem2St.1,
       command_pool := poolSt.1, main_command_buffer := bufSt.1.headI },
     sem2St.2)

/-- app.rs App::new frame loop body: frames.push(Frame::new(..).unwrap()) —
an Err from Frame::new is unwrapped into a panic. -/
def app_push_frame (o : FrameFailures) (st : DeviceState) (index : Nat) :
    CallOutcome (Frame × DeviceState) :=
  match Frame.new_with_failures o st index with
  | CallOutcome.ok r => CallOutcome.ok r
  | CallOutcome.error => CallOutcome.panic
  | CallOutcome.panic => CallOutcome.panic

/-! Concrete inputs used by witnesses and counterexamples. -/

/-- A well-formed capability snapshot with a definite (non-sentinel)
current extent. -/
def ex_caps : SurfaceCapabilitiesKHR :=
  { min_image_count := 2, max_image_count := 3,
    current_extent := { width := 800, height := 600 },
    min_image_extent := { width := 1, height := 1 },
    max_image_extent := { width := 4096, height := 4096 },
    current_transform := 1 }

/-- A capability snapshot reporting the caller-defined sentinel extent. -/
def ex_caps_sentinel : SurfaceCapabilitiesKHR :=
  { ex_caps with current_extent := { width := U32_MAX, height := 600 } }

/-- A support snapshot whose format list holds the preferred format in
second position. -/
def ex4_details : SwapchainSupportDetails :=
  { caps := ex_caps,
    formats := [{ format := 44, color_space := 0 }, { format := 30, color_space := 0 }],
    present_modes := [FIFO] }

/-- A support snapshot supporting only FIFO presentation. -/
def ex5_details : SwapchainSupportDetails :=
  { caps := ex_caps, formats := [{ format := 44, color_space := 0 }],
    present_modes := [FIFO] }

/-- A support snapshot with a non-sentinel current extent. -/
def ex6_details : SwapchainSupportDetails :=
  { caps := ex_caps, formats := [preferred_surface_format], present_modes := [FIFO] }

/-- A support snapshot with the caller-defined sentinel extent. -/
def ex6_details_sentinel : SwapchainSupportDetails :=
  { ex6_details with caps := ex_caps_sentinel }

/-- A support snapshot under which Swapchain::new succeeds: the preferred
format is supported, MAILBOX is not (so FIFO is chosen), and the current
extent is definite. -/
def ex7_details : SwapchainSupportDetails :=
  { caps := ex_caps, formats := [preferred_surface_format], present_modes := [FIFO] }

/-- Driver images returned by get_swapchain_images in the witness run. -/
def ex7_images : List Nat := [5, 6, 7]

/-- The create info Swapchain::new requests under ex7_details. -/
def ex7_info : SwapchainCreateInfo :=
  { min_image_count := 3, image_format := B8G8R8_UNORM,
    image_color_space := SRGB_NONLINEAR,
    image_extent := { width := 800, height := 600 },
    image_array_layers := 1, image_usage := COLOR_ATTACHMENT,
    image_sharing_mode := EXCLUSIVE, pre_transform := 1,
    composite_alpha := OPAQUE, present_mode := FIFO, clipped := true }

/-- The swapchain Swapchain::new returns under ex7_details and
ex7_images. -/
def ex7_sc : Swapchain :=
  { extent := { width := 800, height := 600 }, images := ex7_images,
    image_views := create_image_views ex7_images B8G8R8_UNORM,
    details := ex7_details }

/-- A concrete image view for the teardown counterexample. -/
def ex1_view : ImageView :=
  { image := 10, view_type := TYPE_2D, format := B8G8R8_UNORM,
    components := { r := IDENTITY, g := IDENTITY, b := IDENTITY, a := IDENTITY },
    subresource_range :=
      { aspect_mask := COLOR_ASPECT, base_mip_level := 0, level_count := 1,
        base_array_layer := 0, layer_count := 1 } }

/-- A concrete frame for the teardown counterexample. -/
def ex1_frame : Frame :=
  { swapchain_sem := { id := 20, signaled := false },
    rendering_sem := { id := 21, signaled := false },
    command_pool := { id := 22, flags := RESET_COMMAND_BUFFER, queue_family_index := 0 },
    main_command_buffer := { id := 23, pool := 22, level := PRIMARY } }

/-- An app with a validation messenger attached, one image view and one
frame. -/
def ex1_app : App :=
  { image_views := [ex1_view], debug_attached := true, frames := [ex1_frame] }

/-! Helper lemmas (shared; none of these settles a claim by itself). -/

lemma find_format_loop_of_mem (formats : List SurfaceFormatKHR) (preferred : SurfaceFormatKHR)
    (h : preferred ∈ formats) : find_format_loop formats preferred = some preferred := by
  induction formats with
  | nil => cases h
  | cons f rest ih =>
    by_cases hf : f = preferred
    · subst hf; simp [find_format_loop]
    · rcases List.mem_cons.mp h with h0 | h0
      · exact absurd h0.symm hf
      · simp [find_format_loop, hf, ih h0]

lemma find_format_loop_of_not_mem (formats : List SurfaceFormatKHR)
    (preferred : SurfaceFormatKHR) (h : preferred ∉ formats) :
    find_format_loop formats preferred = none := by
  induction formats with
  | nil => rfl
  | cons f rest ih =>
    have h0 : f ≠ preferred := fun hf => h (hf ▸ List.mem_cons_self f rest)
    have h1 : preferred ∉ rest := fun hr => h (List.mem_cons_of_mem f hr)
    simp [find_format_loop, h0, ih h1]

lemma find_mode_loop_of_mem (modes : List Nat) (preferred : Nat) (h : preferred ∈ modes) :
    find_mode_loop modes preferred = some preferred := by
  induction modes with
  | nil => cases h
  | cons m rest ih =>
    by_cases hm : m = preferred
    · subst hm; simp [find_mode_loop]
    · rcases List.mem_cons.mp h with h0 | h0
      · exact absurd h0.symm hm
      · simp [find_mode_loop, hm, ih h0]

lemma find_mode_loop_of_not_mem (modes : List Nat) (preferred : Nat) (h : preferred ∉ modes) :
    find_mode_loop modes preferred = none := by
  induction modes with
  | nil => rfl
  | cons m rest ih =>
    have h0 : m ≠ preferred := fun hm => h (hm ▸ List.mem_cons_self m rest)
    have h1 : preferred ∉ rest := fun hr => h (List.mem_cons_of_mem m hr)
    simp [find_mode_loop, h0, ih h1]

/-! Claim theorems. -/

/-- C3: pick_physical_device errors (with the error the spec names
NoDeviceFound) exactly on the empty device list, and otherwise returns the
first enumerated device with no further filtering. -/
theorem pick_physical_device_spec (devices : List Nat) :
    (devices = [] → pick_physical_device devices = Except.error VkError.noDeviceFound) ∧
    (∀ d rest, devices = d :: rest → pick_physical_device devices = Except.ok d) := by
  constructor
  · rintro rfl; rfl
  · rintro d rest rfl; rfl

/-- C3 witness: the empty list errors and a two-device list yields the
first device. -/
theorem pick_physical_device_spec_witness :
    pick_physical_device [] = Except.error VkError.noDeviceFound ∧
    pick_physical_device [7, 8] = Except.ok 7 :=
  ⟨(pick_physical_device_spec []).1 rfl, (pick_physical_device_spec [7, 8]).2 7 [8] rfl⟩

/-- C4: choose_surface_format returns the preferred format exactly when the
supported set contains it, and otherwise the set's first element (head?,
which is the index-0 element whenever the set is nonempty; the Rust
formats[0] fallback panics on an empty set, modelled by none). -/
theorem choose_surface_format_spec (d : SwapchainSupportDetails)
    (preferred : SurfaceFormatKHR) :
    (preferred ∈ d.formats → d.choose_surface_format preferred = some preferred) ∧
    (preferred ∉ d.formats → d.choose_surface_format preferred = d.formats.head?) := by
  constructor
  · intro h
    unfold SwapchainSupportDetails.choose_surface_format
    rw [find_format_loop_of_mem d.formats preferred h]
  · intro h
    unfold SwapchainSupportDetails.choose_surface_format
    rw [find_format_loop_of_not_mem d.formats preferred h]

/-- C4 witness: with supported formats 44 and 30, preferred 30 is returned;
an unsupported preferred 50 falls back to the first supported format. -/
theorem choose_surface_format_spec_witness :
    ex4_details.choose_surface_format { format := 30, color_space := 0 } =
      some { format := 30, color_space := 0 } ∧
    ex4_details.choose_surface_format { format := 50, color_space := 0 } =
      some { format := 44, color_space := 0 } := by
  constructor
  · exact (choose_surface_format_spec ex4_details { format := 30, color_space := 0 }).1
      (by decide)
  · rw [(choose_surface_format_spec ex4_details { format := 50, color_space := 0 }).2
      (by decide)]
    rfl

/-- C5: choose_present_mode returns the preferred mode exactly when the
supported set contains it, and otherwise returns FIFO (the mode the
presentation contract guarantees), never any other mode. -/
theorem choose_present_mode_spec (d : SwapchainSupportDetails) (preferred : Nat) :
    (preferred ∈ d.present_modes → d.choose_present_mode preferred = preferred) ∧
    (preferred ∉ d.present_modes → d.choose_present_mode preferred = FIFO) := by
  constructor
  · intro h
    unfold SwapchainSupportDetails.choose_present_mode
    rw [find_mode_loop_of_mem d.present_modes preferred h]
  · intro h
    unfold SwapchainSupportDetails.choose_present_mode
    rw [find_mode_loop_of_not_mem d.present_modes preferred h]

/-- C5 witness: a FIFO-only set returns FIFO when preferred, and falls back
to FIFO when MAILBOX is preferred but unsupported. -/
theorem choose_present_mode_spec_witness :
    ex5_details.choose_present_mode FIFO = FIFO ∧
    ex5_details.choose_present_mode MAILBOX = FIFO :=
  ⟨(choose_present_mode_spec ex5_details FIFO).1 (by decide),
   (choose_present_mode_spec ex5_details MAILBOX).2 (by decide)⟩

/-- C6: when the current extent's width is not the u32::MAX caller-defined
sentinel, choose_extent returns the capability-reported current extent
unmodified whatever was requested; when it is the sentinel, each requested
axis is clamped independently to the min/max image-extent bounds. -/
theorem choose_extent_spec (d : SwapchainSupportDetails) (w h : Nat) :
    (d.caps.current_extent.width ≠ U32_MAX → d.choose_extent w h = d.caps.current_extent) ∧
    (d.caps.current_extent.width = U32_MAX →
      d.choose_extent w h =
        { width := u32_clamp w d.caps.min_image_extent.width d.caps.max_image_extent.width,
          height := u32_clamp h d.caps.min_image_extent.height d.caps.max_image_extent.height }) := by
  constructor
  · intro hc; simp [SwapchainSupportDetails.choose_extent, hc]
  · intro hc; simp [SwapchainSupportDetails.choose_extent, hc]

/-- C6 witness: a definite 800x600 extent is returned unmodified for a
1920x1080 request, and under the sentinel the same request is clamped into
the 1..4096 bounds. -/
theorem choose_extent_spec_witness :
    ex6_details.choose_extent 1920 1080 = { width := 800, height := 600 } ∧
    ex6_details_sentinel.choose_extent 1920 1080 = { width := 1920, height := 1080 } := by
  constructor
  · exact (choose_extent_spec ex6_details 1920 1080).1 (by decide)
  · rw [(choose_extent_spec ex6_details_sentinel 1920 1080).2 (by decide)]
    decide

lemma flatten_map_singleton {α β : Type} (g : α → β) (l : List α) :
    (l.map fun x => [g x]).flatten = l.map g := by
  induction l with
  | nil => rfl
  | cons x rest ih => simp [ih]

lemma foldl_append_eq_flatMap {α β : Type} (f : α → List β) :
    ∀ (l : List α) (init : List β),
      l.foldl (fun acc x => acc ++ f x) init = init ++ l.flatMap f := by
  intro l
  induction l with
  | nil => intro init; simp
  | cons x rest ih => intro init; simp [List.foldl_cons, ih, List.append_assoc]

/-- C1 counterexample: for a concrete app with the diagnostics messenger
attached, one image view and one frame, the drop trace is not the order the
claim states (image views, swap chain, frame resources, device, surface,
diagnostics channel, instance): the code destroys the diagnostics messenger
second, right after the image views and before the device and surface, and
destroys the frame resources before the swap chain. -/
theorem app_drop_ne_claimed_order :
    ex1_app.drop ≠
      ex1_app.image_views.map DestroyEvent.image_view
      ++ [DestroyEvent.swapchain]
      ++ ex1_app.frames.flatMap frame_destroy_events
      ++ [DestroyEvent.device, DestroyEvent.surface, DestroyEvent.debug_messenger,
          DestroyEvent.inst] := by
  decide

/-- C1 amended: the Drop impl issues destroy calls in this exact order:
every swap chain image view, then the diagnostics messenger when one was
attached, then for each frame its two semaphores followed by its command
pool, then the swap chain, the logical device, the surface, and the
instance last.  In particular the frame resources are destroyed before the
swap chain, but the diagnostics channel is destroyed before (not after) the
logical device and surface. -/
theorem app_drop_order (app : App) :
    app.drop =
      app.image_views.map DestroyEvent.image_view
      ++ (if app.debug_attached then [DestroyEvent.debug_messenger] else [])
      ++ app.frames.flatMap frame_destroy_events
      ++ [DestroyEvent.swapchain, DestroyEvent.device, DestroyEvent.surface,
          DestroyEvent.inst] := by
  unfold App.drop
  simp only [foldl_append_eq_flatMap]
  cases hd : app.debug_attached <;>
    simp [List.append_assoc, List.flatMap_def, flatten_map_singleton]

lemma find_aux_none_iff (queue_type : Nat) :
    ∀ (fams : List QueueFamilyProperties) (start : Nat),
      find_queue_family_aux queue_type start fams = none ↔
        ∀ j (hj : j < fams.length), ¬ family_matches fams[j] queue_type := by
  intro fams
  induction fams with
  | nil =>
    intro start
    constructor
    · intro _ j hj; exact absurd hj (Nat.not_lt_zero j)
    · intro _; rfl
  | cons f rest ih =>
    intro start
    unfold find_queue_family_aux
    by_cases hm : family_matches f queue_type
    · rw [if_pos hm]
      constructor
      · intro h; exact Option.noConfusion h
      · intro h; exact absurd hm (h 0 (Nat.succ_pos rest.length))
    · rw [if_neg hm]
      rw [ih (start + 1)]
      constructor
      · intro h j hj
        match j with
        | 0 => exact hm
        | j' + 1 =>
          have hj' : j' < rest.length := Nat.lt_of_succ_lt_succ hj
          simpa [List.getElem_cons_succ] using h j' hj'
      · intro h j hj
        have hsj : j + 1 < (f :: rest).length := Nat.succ_lt_succ hj
        simpa [List.getElem_cons_succ] using h (j + 1) hsj

lemma find_aux_some (queue_type : Nat) :
    ∀ (fams : List QueueFamilyProperties) (start i : Nat),
      find_queue_family_aux queue_type start fams = some i →
        start ≤ i ∧ ∃ hk : i - start < fams.length,
          family_matches fams[i - start] queue_type ∧
          ∀ j (hj : j < fams.length), j < i - start → ¬ family_matches fams[j] queue_type := by
  intro fams
  induction fams with
  | nil => intro start i h; exact Option.noConfusion h
  | cons f rest ih =>
    intro start i h
    unfold find_queue_family_aux at h
    by_cases hm : family_matches f queue_type
    · rw [if_pos hm] at h
      have hi : start = i := by injection h
      subst hi
      refine ⟨Nat.le_refl start, ?_⟩
      have hz : start - start = 0 := Nat.sub_self start
      refine ⟨by simp [hz], ?_, ?_⟩
      · simpa [hz] using hm
      · intro j hj hlt
        rw [hz] at hlt
        exact absurd hlt (Nat.not_lt_zero j)
    · rw [if_neg hm] at h
      obtain ⟨hle, hk, hmat, hmin⟩ := ih (start + 1) i h
      have hle' : start ≤ i := Nat.le_trans (Nat.le_succ start) hle
      have hsub : i - start = (i - (start + 1)) + 1 := by omega
      refine ⟨hle', ?_⟩
      rw [hsub]
      refine ⟨by simpa using Nat.succ_lt_succ hk, ?_, ?_⟩
      · simpa [List.getElem_cons_succ] using hmat
      · intro j hj hlt
        match j with
        | 0 => exact hm
        | j' + 1 =>
          have hj' : j' < rest.length := Nat.lt_of_succ_lt_succ hj
          have hlt' : j' < i - (start + 1) := Nat.lt_of_succ_lt_succ hlt
          simpa [List.getElem_cons_succ] using hmin j' hj' hlt'

lemma find_indicies_some (families : List QueueFamilyProperties) (queue_type i : Nat)
    (h : find_queue_family_indicies families queue_type = some i) :
    ∃ hi : i < families.length, family_matches families[i] queue_type ∧
      ∀ j (hj : j < families.length), j < i → ¬ family_matches families[j] queue_type := by
  obtain ⟨-, hk, hmat, hmin⟩ := find_aux_some queue_type families 0 i h
  simp only [Nat.sub_zero] at hk hmat hmin
  exact ⟨hk, hmat, hmin⟩

lemma find_indicies_none_iff (families : List QueueFamilyProperties) (queue_type : Nat) :
    find_queue_family_indicies families queue_type = none ↔
      ∀ j (hj : j < families.length), ¬ family_matches families[j] queue_type :=
  find_aux_none_iff queue_type families 0

/-- C10: find_queue_family_indicies returns some i only when family i both
has a strictly positive queue_count and has flags containing the requested
capability (family_matches), i is the smallest such index, and none is
returned exactly when no family satisfies both conditions — so a family
with matching flags but queue_count 0 is skipped. -/
theorem find_queue_family_indicies_spec (families : List QueueFamilyProperties)
    (queue_type : Nat) :
    (∀ i, find_queue_family_indicies families queue_type = some i →
      ∃ hi : i < families.length, family_matches families[i] queue_type ∧
        ∀ j (hj : j < families.length), j < i → ¬ family_matches families[j] queue_type) ∧
    (find_queue_family_indicies families queue_type = none ↔
      ∀ j (hj : j < families.length), ¬ family_matches families[j] queue_type) :=
  ⟨fun i h => find_indicies_some families queue_type i h,
   find_indicies_none_iff families queue_type⟩

/-- C10 witness: with a zero-queue graphics family at index 0 and a usable
graphics family at index 1, the search returns index 1, skipping the
zero-count family; the second family indeed satisfies both conditions. -/
theorem find_queue_family_indicies_spec_witness :
    family_matches { queue_flags := GRAPHICS, queue_count := 2 } GRAPHICS ∧
    find_queue_family_indicies
      [{ queue_flags := GRAPHICS, queue_count := 0 },
       { queue_flags := GRAPHICS, queue_count := 2 }] GRAPHICS = some 1 := by
  have h := (find_queue_family_indicies_spec
    [{ queue_flags := GRAPHICS, queue_count := 0 },
     { queue_flags := GRAPHICS, queue_count := 2 }] GRAPHICS).1 1 (by decide)
  obtain ⟨hi, hmat, -⟩ := h
  exact ⟨hmat, by decide⟩

/-- C2 counterexample: for the one-family table whose single family is
graphics-capable while the surface-support query returns false for every
family (so the table lacks any surface-supporting family), the selection
the spec describes fails with IncompleteQueueFamilies, but the code's
selection — which never queries surface support at all — succeeds with
index 0 instead of failing. -/
theorem spec_selection_vs_code_selection :
    spec_queue_family_selection [{ queue_flags := GRAPHICS, queue_count := 1 }]
      (fun _ => false) = Except.error VkError.incompleteQueueFamilies ∧
    app_queue_family_selection [{ queue_flags := GRAPHICS, queue_count := 1 }] =
      SelectOutcome.ok 0 :=
  ⟨rfl, rfl⟩

/-- C2 amended: App::new resolves only a graphics index: it records the
first family with a positive queue count whose flags include GRAPHICS, it
performs no surface-support query and resolves no present index, it never
produces an IncompleteQueueFamilies error value, and when no family
qualifies it panics (unwrap on None) instead of returning an error. -/
theorem app_queue_family_selection_graphics_only (families : List QueueFamilyProperties) :
    (∀ e, app_queue_family_selection families ≠ SelectOutcome.error e) ∧
    (∀ i, app_queue_family_selection families = SelectOutcome.ok i →
      ∃ hi : i < families.length, family_matches families[i] GRAPHICS ∧
        ∀ j (hj : j < families.length), j < i → ¬ family_matches families[j] GRAPHICS) ∧
    (app_queue_family_selection families = SelectOutcome.panic ↔
      ∀ j (hj : j < families.length), ¬ family_matches families[j] GRAPHICS) := by
  refine ⟨?_, ?_, ?_⟩
  · intro e h
    unfold app_queue_family_selection at h
    cases hf : find_queue_family_indicies families GRAPHICS <;> rw [hf] at h <;>
      exact SelectOutcome.noConfusion h
  · intro i h
    unfold app_queue_family_selection at h
    cases hf : find_queue_family_indicies families GRAPHICS with
    | none => rw [hf] at h; exact SelectOutcome.noConfusion h
    | some k =>
      rw [hf] at h
      have hk : k = i := by injection h
      subst hk
      exact find_indicies_some families GRAPHICS k hf
  · constructor
    · intro h
      unfold app_queue_family_selection at h
      cases hf : find_queue_family_indicies families GRAPHICS with
      | none => exact (find_indicies_none_iff families GRAPHICS).mp hf
      | some k => rw [hf] at h; exact SelectOutcome.noConfusion h
    · intro h
      unfold app_queue_family_selection
      rw [(find_indicies_none_iff families GRAPHICS).mpr h]

/-- C2 amended witness: on a table with no graphics-capable family the
selection panics rather than erroring, and on a graphics-capable table it
returns the first qualifying index. -/
theorem app_queue_family_selection_graphics_only_witness :
    app_queue_family_selection [{ queue_flags := 4, queue_count := 1 }] ≠
      SelectOutcome.error VkError.incompleteQueueFamilies :=
  (app_queue_family_selection_graphics_only
    [{ queue_flags := 4, queue_count := 1 }]).1 VkError.incompleteQueueFamilies

/-- C7: whenever Swapchain::new succeeds, one view was created per returned
image (equal lengths, and projecting each view's image gives back the image
list, index-aligned), the requested minimum image count is exactly
capabilities.min_image_count + 1 with no cap against max_image_count, and
every created view carries the negotiated surface format. -/
theorem swapchain_new_spec (details : SwapchainSupportDetails) (driver_images : List Nat)
    (info : SwapchainCreateInfo) (sc : Swapchain)
    (hnew : Swapchain.new details driver_images = some (info, sc)) :
    sc.image_views.length = sc.images.length ∧
    sc.image_views.map (fun v => v.image) = sc.images ∧
    info.min_image_count = details.caps.min_image_count + 1 ∧
    ∃ f, details.choose_surface_format preferred_surface_format = some f ∧
      ∀ v ∈ sc.image_views, v.format = f.format := by
  unfold Swapchain.new at hnew
  cases hfmt : details.choose_surface_format preferred_surface_format with
  | none => rw [hfmt] at hnew; exact Option.noConfusion hnew
  | some f =>
    rw [hfmt] at hnew
    simp only [Option.some.injEq, Prod.mk.injEq] at hnew
    obtain ⟨hinfo, hsc⟩ := hnew
    subst hinfo
    subst hsc
    refine ⟨?_, ?_, ?_, f, rfl, ?_⟩
    · simp [create_image_views]
    · simp [create_image_views, List.map_map, Function.comp_def]
    · rfl
    · intro v hv
      simp only [create_image_views, List.mem_map] at hv
      obtain ⟨image, -, rfl⟩ := hv
      rfl

/-- C7 witness: a run with three driver images under a snapshot supporting
the preferred format: lengths agree and the requested count is
min_image_count + 1 = 3 even though max_image_count is 3. -/
theorem swapchain_new_spec_witness :
    ex7_sc.image_views.length = ex7_sc.images.length ∧
    ex7_info.min_image_count = ex7_details.caps.min_image_count + 1 := by
  have h := swapchain_new_spec ex7_details ex7_images ex7_info ex7_sc (by decide)
  exact ⟨h.1, h.2.2.1⟩

/-- C8: running the App::new frame loop (count = FRAMES_IN_FLIGHT = 2, with
the graphics family index resolved by find_queue_family_indicies) on a
fresh device state yields exactly two frames; each holds a command pool
with the RESET_COMMAND_BUFFER flag for that index, a primary command buffer
that is the unique buffer allocated from that frame's pool, and two
distinct unsignaled semaphores, with the two frames' pools distinct. -/
theorem frame_pool_spec (families : List QueueFamilyProperties) (gfx : Nat)
    (_hfind : find_queue_family_indicies families GRAPHICS = some gfx) :
    ((make_frames gfx FRAMES_IN_FLIGHT { next_handle := 0, buffers := [] }).1).length =
      FRAMES_IN_FLIGHT ∧
    (∀ f ∈ (make_frames gfx FRAMES_IN_FLIGHT { next_handle := 0, buffers := [] }).1,
      f.command_pool.flags = RESET_COMMAND_BUFFER ∧
      f.command_pool.queue_family_index = gfx ∧
      f.main_command_buffer.level = PRIMARY ∧
      f.main_command_buffer.pool = f.command_pool.id ∧
      (((make_frames gfx FRAMES_IN_FLIGHT { next_handle := 0, buffers := [] }).2.buffers.filter
        (fun b => decide (b.pool = f.command_pool.id))).length = 1) ∧
      f.swapchain_sem.id ≠ f.rendering_sem.id ∧
      f.swapchain_sem.signaled = false ∧
      f.rendering_sem.signaled = false) ∧
    ((make_frames gfx FRAMES_IN_FLIGHT { next_handle := 0, buffers := [] }).1.map
      (fun f => f.command_pool.id)).Nodup := by
  have hframes : (make_frames gfx FRAMES_IN_FLIGHT { next_handle := 0, buffers := [] }).1 =
      [{ swapchain_sem := { id := 2, signaled := false },
         rendering_sem := { id := 3, signaled := false },
         command_pool := { id := 0, flags := RESET_COMMAND_BUFFER, queue_family_index := gfx },
         main_command_buffer := { id := 1, pool := 0, level := PRIMARY } },
       { swapchain_sem := { id := 6, signaled := false },
         rendering_sem := { id := 7, signaled := false },
         command_pool := { id := 4, flags := RESET_COMMAND_BUFFER, queue_family_index := gfx },
         main_command_buffer := { id := 5, pool := 4, level := PRIMARY } }] := rfl
  have hstate : (make_frames gfx FRAMES_IN_FLIGHT { next_handle := 0, buffers := [] }).2 =
      { next_handle := 8,
        buffers := [{ id := 1, pool := 0, level := PRIMARY },
                    { id := 5, pool := 4, level := PRIMARY }] } := rfl
  refine ⟨by rw [hframes]; rfl, ?_, by rw [hframes]; simp⟩
  intro f hf
  rw [hframes] at hf
  rw [hstate]
  rcases List.mem_cons.mp hf with rfl | hf2
  · exact ⟨rfl, rfl, rfl, rfl, rfl, by simp, rfl, rfl⟩
  rcases List.mem_cons.mp hf2 with rfl | hf3
  · exact ⟨rfl, rfl, rfl, rfl, rfl, by simp, rfl, rfl⟩
  exact absurd hf3 (List.not_mem_nil f)

/-- C8 witness: with a one-family graphics-capable table resolving to
index 0, the loop builds exactly FRAMES_IN_FLIGHT frames. -/
theorem frame_pool_spec_witness :
    ((make_frames 0 FRAMES_IN_FLIGHT { next_handle := 0, buffers := [] }).1).length =
      FRAMES_IN_FLIGHT :=
  (frame_pool_spec [{ queue_flags := GRAPHICS, queue_count := 1 }] 0 (by decide)).1

/-- C9 counterexample: a failing command-pool creation makes Frame::new
panic (the call site unwraps the driver error) instead of returning the
error value to the caller as the claim states. -/
theorem frame_pool_failure_panics :
    Frame.new_with_failures
      { pool_fails := true, buffers_fail := false, sem1_fails := false, sem2_fails := false }
      { next_handle := 0, buffers := [] } 0 = CallOutcome.panic ∧
    Frame.new_with_failures
      { pool_fails := true, buffers_fail := false, sem1_fails := false, sem2_fails := false }
      { next_handle := 0, buffers := [] } 0 ≠ CallOutcome.error :=
  ⟨rfl, by decide⟩

/-- C9 amended: inside Frame::new, command-pool creation and command-buffer
allocation failures panic (their results are unwrapped), while semaphore
creation failures propagate as an Err of Frame::new's Result; at the App
level the frame loop unwraps Frame::new too, so every failing driver call
in the frame resource pool aborts construction by panic, and none surfaces
as an Error result to App::new's caller. -/
theorem frame_failure_outcomes (o : FrameFailures) (st : DeviceState) (index : Nat) :
    (o.pool_fails = true → Frame.new_with_failures o st index = CallOutcome.panic) ∧
    (o.pool_fails = false → o.buffers_fail = true →
      Frame.new_with_failures o st index = CallOutcome.panic) ∧
    (o.pool_fails = false → o.buffers_fail = false →
      (o.sem1_fails = true ∨ o.sem2_fails = true) →
      Frame.new_with_failures o st index = CallOutcome.error) ∧
    ((o.pool_fails = true ∨ o.buffers_fail = true ∨ o.sem1_fails = true ∨ o.sem2_fails = true) →
      app_push_frame o st index = CallOutcome.panic) := by
  rcases o with ⟨p, b, s1, s2⟩
  cases p <;> cases b <;> cases s1 <;> cases s2 <;>
    simp [Frame.new_with_failures, app_push_frame]

/-- C9 amended witness: a failing first semaphore makes Frame::new return
the error, and the App-level push of that frame panics. -/
theorem frame_failure_outcomes_witness :
    Frame.new_with_failures
      { pool_fails := false, buffers_fail := false, sem1_fails := true, sem2_fails := false }
      { next_handle := 0, buffers := [] } 0 = CallOutcome.error ∧
    app_push_frame
      { pool_fails := false, buffers_fail := false, sem1_fails := true, sem2_fails := false }
      { next_handle := 0, buffers := [] } 0 = CallOutcome.panic :=
  ⟨(frame_failure_outcomes
      { pool_fails := false, buffers_fail := false, sem1_fails := true, sem2_fails := false }
      { next_handle := 0, buffers := [] } 0).2.2.1 rfl rfl (Or.inl rfl),
   (frame_failure_outcomes
      { pool_fails := false, buffers_fail := false, sem1_fails := true, sem2_fails := false }
      { next_handle := 0, buffers := [] } 0).2.2.2 (Or.inr (Or.inr (Or.inl rfl)))⟩

end AshGltf
